import Mathlib

/-!
Shallow embedding of the delivery-estimation service (holidays.py,
calculator.py, config.py, validators.py, main.py).

Calendar dates are represented by their proleptic-Gregorian ordinal
(`date.toordinal()` in the source language): day 1 is 0001-01-01.
Adding a `timedelta(days = k)` is ordinal addition, date comparison and
equality are ordinal comparison and equality, and `date.weekday()` is
`(ordinal + 6) % 7` (Monday = 0, Sunday = 6).
-/

namespace Delivery

/-- Gregorian leap-year test, as used by the datetime library. -/
def isLeap (y : Nat) : Bool :=
  (y % 4 == 0 && y % 100 != 0) || y % 400 == 0

/-- Number of days in month `m` (1-12) of year `y`. -/
def daysInMonth (y m : Nat) : Nat :=
  if m = 2 then (if isLeap y then 29 else 28)
  else if m = 4 ∨ m = 6 ∨ m = 9 ∨ m = 11 then 30
  else 31

/-- Days of year `y` that precede the first day of month `m`. -/
def daysBeforeMonth (y m : Nat) : Nat :=
  let l := if isLeap y then 1 else 0
  match m with
  | 1 => 0
  | 2 => 31
  | 3 => 59 + l
  | 4 => 90 + l
  | 5 => 120 + l
  | 6 => 151 + l
  | 7 => 181 + l
  | 8 => 212 + l
  | 9 => 243 + l
  | 10 => 273 + l
  | 11 => 304 + l
  | 12 => 334 + l
  | _ => 0

/-- `date(y, m, d).toordinal()`: days since 0000-12-31 in the proleptic
Gregorian calendar (0001-01-01 is day 1). -/
def toOrdinal (y m d : Nat) : Nat :=
  365 * (y - 1) + (y - 1) / 4 + (y - 1) / 400 - (y - 1) / 100
    + daysBeforeMonth y m + d

/-- The range restriction the datetime library places on constructed dates:
`datetime(year, month, day)` raises outside of it. -/
def isValidDate (y m d : Nat) : Prop :=
  1 ≤ y ∧ y ≤ 9999 ∧ 1 ≤ m ∧ m ≤ 12 ∧ 1 ≤ d ∧ d ≤ daysInMonth y m

instance (y m d : Nat) : Decidable (isValidDate y m d) := by
  unfold isValidDate; infer_instance

/-- `date.weekday()`: Monday = 0 .. Sunday = 6. -/
def weekday (ord : Nat) : Nat := (ord + 6) % 7

/-- Year component of an ordinal (`date.fromordinal(n).year`), via the
standard civil-from-days computation. -/
def yearOfOrd (n : Nat) : Nat :=
  let z := n + 305
  let era := z / 146097
  let doe := z % 146097
  let yoe := (doe - doe / 1460 + doe / 36524 - doe / 146096) / 365
  let y := yoe + era * 400
  let doy := doe - (365 * yoe + yoe / 4 - yoe / 100)
  let mp := (5 * doy + 2) / 153
  if mp < 10 then y else y + 1

/-! ## HolidayCalculator (holidays.py) -/

/-- `HolidayCalculator._calculate_easter`: the Computus (anonymous
Gregorian) algorithm, with the except-branch fallback to April 15 when
the computed date cannot be constructed. -/
def calculate_easter (year : Nat) : Nat :=
  let y : Int := year
  let a := Int.emod y 19
  let b := Int.ediv y 100
  let c := Int.emod y 100
  let d := Int.ediv b 4
  let e := Int.emod b 4
  let f := Int.ediv (b + 8) 25
  let g := Int.ediv (b - f + 1) 3
  let h := Int.emod (19 * a + b - d - g + 15) 30
  let i := Int.ediv c 4
  let k := Int.emod c 4
  let l := Int.emod (32 + 2 * e + 2 * i - h - k) 7
  let m := Int.ediv (a + 11 * h + 22 * l) 451
  let month := Int.ediv (h + l - 7 * m + 114) 31
  let day := Int.emod (h + l - 7 * m + 114) 31 + 1
  if isValidDate year month.toNat day.toNat then toOrdinal year month.toNat day.toNat
  else toOrdinal year 4 15

/-- `HolidayCalculator._get_holy_week_dates`: Easter minus 3, 2, 1 days
(Maundy Thursday, Good Friday, Black Saturday); the except branch yields
`[]` exactly when the year is outside the constructible range. -/
def get_holy_week_dates (year : Nat) : List Nat :=
  if 1 ≤ year ∧ year ≤ 9999 then
    let easter_sunday := calculate_easter year
    [easter_sunday - 3, easter_sunday - 2, easter_sunday - 1]
  else []

/-- The eleven fixed-date holidays listed in `get_ph_holidays`. -/
def ph_fixed_holidays (year : Nat) : List Nat :=
  [toOrdinal year 1 1, toOrdinal year 4 9, toOrdinal year 5 1,
   toOrdinal year 6 12, toOrdinal year 8 21, toOrdinal year 8 25,
   toOrdinal year 11 1, toOrdinal year 11 30, toOrdinal year 12 25,
   toOrdinal year 12 30, toOrdinal year 12 31]

/-- Insert into a strictly ascending list, dropping an exact duplicate. -/
def insertSorted (d : Nat) : List Nat → List Nat
  | [] => [d]
  | x :: xs =>
    if d < x then d :: x :: xs
    else if d = x then x :: xs
    else x :: insertSorted d xs

/-- `sorted(list(set(l)))`: ascending order, duplicates removed. -/
def dedupSort (l : List Nat) : List Nat := l.foldr insertSorted []

/-- Body of `HolidayCalculator.get_ph_holidays` (the cache aside):
`none` models the except branch (date construction failed for the year),
in which case the caller sees `[]` and nothing is cached. -/
def ph_holidays_core (year : Nat) : Option (List Nat) :=
  if 1 ≤ year ∧ year ≤ 9999 then
    some (dedupSort (ph_fixed_holidays year ++ get_holy_week_dates year))
  else none

/-- Body of `HolidayCalculator.get_major_ph_holidays` (the cache aside). -/
def major_ph_holidays_core (year : Nat) : Option (List Nat) :=
  if 1 ≤ year ∧ year ≤ 9999 then
    let holy_week := get_holy_week_dates year
    let base := [toOrdinal year 1 1, toOrdinal year 12 25]
    some (dedupSort (if 2 ≤ holy_week.length then base ++ holy_week.take 2 else base))
  else none

/-- `get_ph_holidays` as observed by callers (memoization is transparent). -/
def ph_holidays (year : Nat) : List Nat := (ph_holidays_core year).getD []

/-- `get_major_ph_holidays` as observed by callers. -/
def major_ph_holidays (year : Nat) : List Nat := (major_ph_holidays_core year).getD []

/-- The two class-level memoization tables of `HolidayCalculator`. -/
structure HolidayState where
  holiday_cache : List (Nat × List Nat)
  major_holiday_cache : List (Nat × List Nat)
deriving DecidableEq

/-- `HolidayCalculator.get_ph_holidays` with its cache made explicit:
a hit returns the stored list unchanged; a miss computes, stores and
returns; the except branch returns `[]` without storing. -/
def get_ph_holidays (st : HolidayState) (year : Nat) : List Nat × HolidayState :=
  match st.holiday_cache.lookup year with
  | some l => (l, st)
  | none =>
    match ph_holidays_core year with
    | some l => (l, { st with holiday_cache := (year, l) :: st.holiday_cache })
    | none => ([], st)

/-- `HolidayCalculator.get_major_ph_holidays` with its cache explicit. -/
def get_major_ph_holidays (st : HolidayState) (year : Nat) : List Nat × HolidayState :=
  match st.major_holiday_cache.lookup year with
  | some l => (l, st)
  | none =>
    match major_ph_holidays_core year with
    | some l => (l, { st with major_holiday_cache := (year, l) :: st.major_holiday_cache })
    | none => ([], st)

/-- `HolidayCalculator.is_holiday`. -/
def is_holiday (date : Nat) (major_only : Bool) : Bool :=
  let year := yearOfOrd date
  let holidays := if major_only then major_ph_holidays year else ph_holidays year
  holidays.contains date

/-- `HolidayCalculator.is_sunday`. -/
def is_sunday (date : Nat) : Bool := weekday date == 6

/-- `HolidayCalculator.is_weekend`. -/
def is_weekend (date : Nat) : Bool := weekday date == 5 || weekday date == 6

/-! ## DeliveryCalculator (calculator.py) -/

/-- `DeliveryCalculator.MAX_CALCULATION_ITERATIONS`. -/
def MAX_CALCULATION_ITERATIONS : Nat := 100

/-- `DeliveryCalculator.should_skip_date`: LBC skips Sundays and all
holidays, J&T skips only major holidays, anything else gets the default
(Sundays and all holidays). -/
def should_skip_date (courier_name : String) (date : Nat) : Bool :=
  if courier_name = "LBC" then is_sunday date || is_holiday date false
  else if courier_name = "J&T" then is_holiday date true
  else is_sunday date || is_holiday date false

/-- The while-loop of `calculate_delivery_date`: state is
`(current_date, days_added, iterations)`; each pass advances one
calendar day, counts it when not skipped, and stops when `days_added`
reaches `base_days` or `iterations` reaches `max_iterations`. The
structural `fuel` argument only bounds the recursion; callers pass
`fuel = max_iterations`, so the guard `iterations < max_iterations`
always stops the loop before the fuel can run out. -/
def calc_loop (courier_name : String) (base_days : Int) (max_iterations : Nat) :
    Nat → Nat → Int → Nat → Nat × Int × Nat
  | 0, current_date, days_added, iterations => (current_date, days_added, iterations)
  | fuel + 1, current_date, days_added, iterations =>
    if days_added < base_days ∧ iterations < max_iterations then
      let current' := current_date + 1
      let days_added' :=
        if should_skip_date courier_name current' then days_added else days_added + 1
      calc_loop courier_name base_days max_iterations fuel current' days_added' (iterations + 1)
    else (current_date, days_added, iterations)

/-- `DeliveryCalculator.calculate_delivery_date`; a `none` argument for
`max_iterations` selects the class default of 100. -/
def calculate_delivery_date (start_date : Nat) (base_days : Int) (courier_name : String)
    (max_iterations_opt : Option Nat) : Option Nat :=
  let max_iterations := max_iterations_opt.getD MAX_CALCULATION_ITERATIONS
  if base_days ≤ 0 then none
  else
    let r := calc_loop courier_name base_days max_iterations max_iterations start_date 0 0
    if max_iterations ≤ r.2.2 then none
    else some r.1

/-- Specification-side counter: the number of non-skipped days among the
`k` calendar days following `cur` (the value `days_added` holds after
`k` advances from `cur`). -/
def spec_business_count (courier_name : String) (cur : Nat) : Nat → Nat
  | 0 => 0
  | k + 1 =>
    (if should_skip_date courier_name (cur + 1) then 0 else 1)
      + spec_business_count courier_name (cur + 1) k

/-- `DeliveryCalculator.get_delivery_confidence`; the float ratio is
modelled by exact rational arithmetic. -/
def get_delivery_confidence (base_days : Int) (total_calendar_days : Int)
    (courier_name : String) : String :=
  let day_ratio : ℚ := if 0 < base_days then (total_calendar_days : ℚ) / (base_days : ℚ) else 1
  if day_ratio ≤ 3 / 2 then "high"
  else if day_ratio ≤ 2 then "medium"
  else "low"

/-! ## Cutoff check (calculator.py) and clock model

An aware datetime is compared against `current_time.replace(hour, minute,
second=0, microsecond=0)`, which shares its date and zone, so the
comparison reduces to the time-of-day fields. -/

/-- The time-of-day fields of the current datetime. -/
structure TimeOfDay where
  hour : Nat
  minute : Nat
  second : Nat
  microsecond : Nat
deriving DecidableEq

/-- Microseconds since midnight; lexicographic comparison of the fields
of in-range datetimes coincides with comparison of this value. -/
def TimeOfDay.toMicros (t : TimeOfDay) : Nat :=
  ((t.hour * 60 + t.minute) * 60 + t.second) * 1000000 + t.microsecond

/-- `str.split(sep)` for a one-character separator. -/
def splitOnChar (sep : Char) : List Char → List (List Char)
  | [] => [[]]
  | c :: rest =>
    let r := splitOnChar sep rest
    if c = sep then [] :: r
    else
      match r with
      | [] => [[c]]
      | hd :: tl => (c :: hd) :: tl

/-- Digit-string to number; `none` when empty or a non-digit occurs. -/
def digitsToNat : List Char → Option Nat
  | [] => none
  | l => l.foldl (fun acc c =>
      match acc with
      | none => none
      | some n => if c.isDigit then some (n * 10 + (c.toNat - 48)) else none)
      (some 0)

/-- `int(s)`: optional surrounding whitespace, optional sign, digits;
`none` models the ValueError on anything else. -/
def py_int (l : List Char) : Option Int :=
  let t := (l.dropWhile Char.isWhitespace).reverse.dropWhile Char.isWhitespace |>.reverse
  match t with
  | '-' :: rest => (digitsToNat rest).map (fun n => -(n : Int))
  | '+' :: rest => (digitsToNat rest).map (fun n => (n : Int))
  | rest => (digitsToNat rest).map (fun n => (n : Int))

/-- `cutoff_hour, cutoff_min = map(int, cutoff_time.split(':'))`:
`none` models the ValueError from a bad int or a wrong part count. -/
def parse_cutoff (cutoff_time : String) : Option (Int × Int) :=
  match (splitOnChar ':' cutoff_time.data).map py_int with
  | [some h, some m] => some (h, m)
  | _ => none

/-- `DeliveryCalculator.check_cutoff_time`: parse `HH:MM`, build the
cutoff instant via `replace` (which raises, caught to `False`, when the
values are out of range), and compare strictly. -/
def check_cutoff_time (current_time : TimeOfDay) (cutoff_time : String) : Bool :=
  match parse_cutoff cutoff_time with
  | none => false
  | some (cutoff_hour, cutoff_min) =>
    if 0 ≤ cutoff_hour ∧ cutoff_hour < 24 ∧ 0 ≤ cutoff_min ∧ cutoff_min < 60 then
      let cutoff_dt : TimeOfDay :=
        { hour := cutoff_hour.toNat, minute := cutoff_min.toNat, second := 0, microsecond := 0 }
      decide (current_time.toMicros < cutoff_dt.toMicros)
    else false

/-! ## Configuration (sheetCredential.py, config.py) -/

/-- A leaf value of the courier table: the JSON decode can yield an
integer or something of another type (rejected by the isinstance check). -/
inductive CVal where
  | int : Int → CVal
  | nonInt : CVal
deriving DecidableEq

/-- The dictionary produced by `parse_to_config`: all five keys are
always present. Mappings are association lists keyed by strings. -/
structure Config where
  store_name : String
  timezone : String
  cutoff_time : String
  working_days : List String
  couriers : List (String × List (String × CVal))
deriving DecidableEq

/-- `DeliveryCalculator.get_courier_base_days`: two-level lookup, then
the isinstance-int and positivity checks; every miss is `none`. -/
def get_courier_base_days (config : Config) (courier_name : String)
    (region : String) : Option Int :=
  match config.couriers.lookup courier_name with
  | none => none
  | some courier_data =>
    match courier_data.lookup region with
    | none => none
    | some v =>
      match v with
      | .int base_days => if base_days ≤ 0 then none else some base_days
      | .nonInt => none

/-- The cutoff-time portion of `ConfigCache._validate_config`. -/
def valid_cutoff (s : String) : Bool :=
  match parse_cutoff s with
  | some (hours, minutes) => decide (0 ≤ hours ∧ hours < 24 ∧ 0 ≤ minutes ∧ minutes < 60)
  | none => false

/-- `ConfigCache._validate_config`; the timezone-database check
(an external collaborator) is the parameter `tz_ok`. The required keys
are always present on a parsed `Config`. -/
def validate_config (tz_ok : String → Bool) (config : Config) : Bool :=
  decide (config.couriers ≠ []) &&
  valid_cutoff config.cutoff_time &&
  tz_ok config.timezone &&
  config.couriers.all (fun courier =>
    courier.2.all (fun region =>
      match region.2 with
      | .int days => decide (0 < days)
      | .nonInt => false))

/-- The class-level state of `ConfigCache`. -/
structure CacheState where
  cache : Option Config
  cache_time : Option Nat
  cache_ttl : Nat
  fetch_in_progress : Bool
deriving DecidableEq

/-- Freshness test of `get_config`: a snapshot and a timestamp exist and
the age is below the TTL. -/
def cache_fresh (st : CacheState) (now : Nat) : Bool :=
  match st.cache, st.cache_time with
  | some _, some t => now - t < st.cache_ttl
  | _, _ => false

/-- Outcome of the remote `get_sheet_data` / `parse_to_config` pair:
empty data, an exception, or a parsed configuration. -/
inductive FetchOutcome where
  | emptyData : FetchOutcome
  | raisesExc : FetchOutcome
  | sheet : Config → FetchOutcome
deriving DecidableEq

/-- `ConfigCache.get_config` as a state transformer over `CacheState`,
with the wall clock (`now`) and the remote outcome as parameters.
`Except.error ()` models a propagated exception; `Except.ok` carries the
returned optional snapshot. -/
def get_config (tz_ok : String → Bool) (st : CacheState) (now : Nat)
    (force_refresh : Bool) (fetch : FetchOutcome) :
    Except Unit (Option Config) × CacheState :=
  if ¬force_refresh ∧ cache_fresh st now then (.ok st.cache, st)
  else if st.fetch_in_progress then (.ok st.cache, st)
  else
    let st1 := { st with fetch_in_progress := true }
    match fetch with
    | .emptyData =>
      let st2 := { st1 with fetch_in_progress := false }
      match st2.cache with
      | some c => (.ok (some c), st2)
      | none => (.error (), st2)
    | .raisesExc =>
      let st2 := { st1 with fetch_in_progress := false }
      match st2.cache with
      | some c => (.ok (some c), st2)
      | none => (.error (), st2)
    | .sheet config =>
      if validate_config tz_ok config then
        (.ok (some config),
         { st1 with cache := some config, cache_time := some now, fetch_in_progress := false })
      else
        let st2 := { st1 with fetch_in_progress := false }
        match st2.cache with
        | some c => (.ok (some c), st2)
        | none => (.error (), st2)

/-! ## InputValidator (validators.py) -/

/-- `InputValidator.ALLOWED_REGIONS`. -/
def ALLOWED_REGIONS : List String := ["ncr", "luzon", "visayas", "mindanao"]

/-- `str.strip()`. -/
def strTrim (s : String) : String :=
  ⟨(s.data.dropWhile Char.isWhitespace).reverse.dropWhile Char.isWhitespace |>.reverse⟩

/-- `str.upper()`. -/
def strUpper (s : String) : String := ⟨s.data.map Char.toUpper⟩

/-- `str.lower()`. -/
def strLower (s : String) : String := ⟨s.data.map Char.toLower⟩

/-- The character screen of `validate_courier`: after removing the
ampersand, hyphen and space characters, the rest must be non-empty and
alphanumeric. -/
def courier_chars_ok (s : String) : Bool :=
  let t := (s.data.filter (fun c => c ≠ '&' ∧ c ≠ '-' ∧ c ≠ ' '))
  decide (t ≠ []) && t.all Char.isAlphanum

/-- `InputValidator.validate_courier`: `some` carries the normalized
name, `none` stands for a failed validation. -/
def validate_courier (courier_name : String) : Option String :=
  if courier_name = "" then none
  else
    let normalized := strUpper (strTrim courier_name)
    if normalized = "" then none
    else if 50 < normalized.data.length then none
    else if courier_chars_ok normalized then some normalized
    else none

/-- `InputValidator.validate_region`. -/
def validate_region (region : String) : Option String :=
  if region = "" then none
  else
    let normalized := strLower (strTrim region)
    if normalized = "" then none
    else if 50 < normalized.data.length then none
    else if ALLOWED_REGIONS.contains normalized then some normalized
    else none

/-! ## The public estimate tool (main.py) -/

/-- `models.ErrorCode`. -/
inductive ErrorCode where
  | INVALID_INPUT : ErrorCode
  | INVALID_COURIER : ErrorCode
  | INVALID_REGION : ErrorCode
  | CONFIG_ERROR : ErrorCode
  | INTERNAL_ERROR : ErrorCode
  | SERVICE_UNAVAILABLE : ErrorCode
deriving DecidableEq

/-- `models.DeliveryEstimate` (the fields with date-math content; the
formatted timestamp echoes are omitted). -/
structure DeliveryEstimate where
  courier : String
  region : String
  cutoff_time : String
  before_cutoff : Bool
  processing_note : String
  start_date : Nat
  base_delivery_days : Int
  estimated_delivery_date : Nat
  total_calendar_days : Int
  confidence_level : String
deriving DecidableEq

/-- Result of the `delivery_estimate` tool: an error dictionary (code
plus the optional `available_couriers` list) or an estimate record. -/
inductive EstimateResult where
  | failure : ErrorCode → Option (List String) → EstimateResult
  | success : DeliveryEstimate → EstimateResult
deriving DecidableEq

/-- `main.delivery_estimate`, with the configuration snapshot and the
current date and time-of-day supplied by the environment (steps 2 and 3
of the source; their failure branches are orthogonal to the estimate
logic). -/
def delivery_estimate (config : Config) (current_date : Nat)
    (current_tod : TimeOfDay) (courier_name : String) (region : String) :
    EstimateResult :=
  match validate_courier courier_name with
  | none => .failure .INVALID_COURIER none
  | some courier_normalized =>
    match validate_region region with
    | none => .failure .INVALID_REGION none
    | some region_normalized =>
      let is_before_cutoff := check_cutoff_time current_tod config.cutoff_time
      match get_courier_base_days config courier_normalized region_normalized with
      | none => .failure .INVALID_COURIER (some (config.couriers.map Prod.fst))
      | some base_days =>
        let start_date := if is_before_cutoff then current_date else current_date + 1
        match calculate_delivery_date start_date base_days courier_normalized none with
        | none => .failure .INTERNAL_ERROR none
        | some estimated_delivery =>
          .success
            { courier := courier_normalized
              region := region_normalized
              cutoff_time := config.cutoff_time
              before_cutoff := is_before_cutoff
              processing_note :=
                if is_before_cutoff then "Order placed before cutoff - same day processing"
                else "Order placed after cutoff - next day processing"
              start_date := start_date
              base_delivery_days := base_days
              estimated_delivery_date := estimated_delivery
              total_calendar_days := (estimated_delivery : Int) - (start_date : Int)
              confidence_level := "high" }

/-- A timezone database in which every name resolves (concrete stand-in
for the external zone check, used for concrete instantiations). -/
def tzAlways : String → Bool := fun _ => true

/-- A concrete, valid configuration snapshot used for concrete
instantiations. -/
def sampleConfig : Config :=
  { store_name := "store"
    timezone := "Asia/Manila"
    cutoff_time := "14:00"
    working_days := []
    couriers := [("LBC", [("ncr", CVal.int 3)])] }

/-! ## Helper lemmas -/

theorem mem_insertSorted {a d : Nat} {l : List Nat} :
    a ∈ insertSorted d l ↔ a = d ∨ a ∈ l := by
  induction l with
  | nil => simp [insertSorted]
  | cons x xs ih =>
    rw [insertSorted]
    by_cases h1 : d < x
    · simp [if_pos h1]
    · by_cases h2 : d = x
      · subst h2
        simp [if_neg h1]
      · simp [if_neg h1, if_neg h2, ih]
        tauto

theorem pairwise_insertSorted {d : Nat} {l : List Nat}
    (h : l.Pairwise (· < ·)) : (insertSorted d l).Pairwise (· < ·) := by
  induction l with
  | nil => simp [insertSorted]
  | cons x xs ih =>
    rw [insertSorted]
    rcases List.pairwise_cons.mp h with ⟨hx, hxs⟩
    by_cases h1 : d < x
    · rw [if_pos h1]
      refine List.pairwise_cons.mpr ⟨?_, h⟩
      intro b hb
      rcases List.mem_cons.mp hb with rfl | hb
      · exact h1
      · exact lt_trans h1 (hx b hb)
    · by_cases h2 : d = x
      · rw [if_neg h1, if_pos h2]
        exact h
      · rw [if_neg h1, if_neg h2]
        refine List.pairwise_cons.mpr ⟨?_, ih hxs⟩
        intro b hb
        rcases mem_insertSorted.mp hb with rfl | hb
        · omega
        · exact hx b hb

theorem pairwise_dedupSort (l : List Nat) : (dedupSort l).Pairwise (· < ·) := by
  induction l with
  | nil => exact List.Pairwise.nil
  | cons x xs ih => exact pairwise_insertSorted ih

theorem mem_dedupSort {a : Nat} {l : List Nat} : a ∈ dedupSort l ↔ a ∈ l := by
  induction l with
  | nil => simp [dedupSort]
  | cons x xs ih =>
    show a ∈ insertSorted x (dedupSort xs) ↔ _
    rw [mem_insertSorted, ih]
    simp

/-- Loop invariant of `calc_loop`: with the fuel equal to the remaining
iteration budget, the loop ends below the iteration ceiling exactly when
the counter can reach `base_days` strictly within the budget. -/
theorem calc_loop_lt_iff (courier_name : String) (base_days : Int) (max_iterations : Nat) :
    ∀ fuel cur (d : Int) iters, iters + fuel = max_iterations →
      ((calc_loop courier_name base_days max_iterations fuel cur d iters).2.2 < max_iterations ↔
        ∃ k, iters + k < max_iterations ∧
          base_days ≤ d + (spec_business_count courier_name cur k : Int)) := by
  intro fuel
  induction fuel with
  | zero =>
    intro cur d iters hinv
    rw [calc_loop]
    dsimp only
    constructor
    · intro h
      omega
    · rintro ⟨k, hk, -⟩
      omega
  | succ fuel ih =>
    intro cur d iters hinv
    rw [calc_loop]
    by_cases hd : d < base_days
    · rw [if_pos ⟨hd, by omega⟩]
      rw [ih (cur + 1) _ (iters + 1) (by omega)]
      constructor
      · rintro ⟨k, hk, hb⟩
        refine ⟨k + 1, by omega, ?_⟩
        rw [spec_business_count]
        by_cases hs : should_skip_date courier_name (cur + 1)
        · simp only [if_pos hs] at hb ⊢
          push_cast
          omega
        · simp only [if_neg hs] at hb ⊢
          push_cast at hb ⊢
          omega
      · rintro ⟨k, hk, hb⟩
        match k with
        | 0 =>
          rw [spec_business_count] at hb
          omega
        | k + 1 =>
          refine ⟨k, by omega, ?_⟩
          rw [spec_business_count] at hb
          by_cases hs : should_skip_date courier_name (cur + 1)
          · simp only [if_pos hs] at hb ⊢
            push_cast at hb ⊢
            omega
          · simp only [if_neg hs] at hb ⊢
            push_cast at hb ⊢
            omega
    · rw [if_neg (by tauto)]
      dsimp only
      constructor
      · intro h
        refine ⟨0, by omega, ?_⟩
        rw [spec_business_count]
        push_cast
        omega
      · rintro ⟨k, hk, -⟩
        omega

/-! ## Claims -/

/-- Claim C1 (amended): `calculate_delivery_date` fails exactly when
`base_days ≤ 0`, or when the accumulated business-day counter does not
reach `base_days` within strictly fewer than `max_iterations`
calendar-day advances; equivalently, the call succeeds exactly when
`base_days` is positive and the counter reaches `base_days` within at
most `max_iterations - 1` advances. In particular for every `n ≤ 0` the
call always fails. -/
theorem c1_theorem (start_date : Nat) (base_days : Int) (courier_name : String)
    (max_iterations_opt : Option Nat) :
    (calculate_delivery_date start_date base_days courier_name max_iterations_opt).isSome = true ↔
      (0 < base_days ∧
        ∃ k, k < max_iterations_opt.getD MAX_CALCULATION_ITERATIONS ∧
          base_days ≤ (spec_business_count courier_name start_date k : Int)) := by
  unfold calculate_delivery_date
  by_cases hb : base_days ≤ 0
  · rw [if_pos hb]
    simp
    omega
  · rw [if_neg hb]
    have h := calc_loop_lt_iff courier_name base_days
      (max_iterations_opt.getD MAX_CALCULATION_ITERATIONS)
      (max_iterations_opt.getD MAX_CALCULATION_ITERATIONS) start_date 0 0 (by omega)
    simp only [zero_add] at h
    by_cases hr : max_iterations_opt.getD MAX_CALCULATION_ITERATIONS ≤
      (calc_loop courier_name base_days (max_iterations_opt.getD MAX_CALCULATION_ITERATIONS)
        (max_iterations_opt.getD MAX_CALCULATION_ITERATIONS) start_date 0 0).2.2
    · simp only [if_pos hr, Option.isSome_none]
      constructor
      · intro hfalse
        exact absurd hfalse (by simp)
      · rintro ⟨-, hex⟩
        exact absurd (h.mpr hex) (by omega)
    · simp only [if_neg hr, Option.isSome_some, true_iff]
      exact ⟨by omega, h.mp (by omega)⟩

/-- Claim C1, counterexample to the claim as stated: with start
2025-01-06, `base_days = 2`, courier J&T and `max_iterations = 2`, the
counter reaches 2 within the 2 allowed advances (2025-01-07 and
2025-01-08 both count), yet the call fails, because the post-loop check
also rejects the run that ends exactly at the iteration ceiling. -/
theorem c1_counterexample :
    (2 : Int) ≤ (spec_business_count "J&T" (toOrdinal 2025 1 6) 2 : Int) ∧
    calc_loop "J&T" 2 2 2 (toOrdinal 2025 1 6) 0 0 = (toOrdinal 2025 1 8, 2, 2) ∧
    calculate_delivery_date (toOrdinal 2025 1 6) 2 "J&T" (some 2) = none := by
  refine ⟨by decide, by decide, by decide⟩

/-- Claim C2: starting 2025-12-24 with 3 business days and courier LBC,
2025-12-25 is skipped as a holiday, 2025-12-26 and 2025-12-27 count,
2025-12-28 is skipped as a Sunday, 2025-12-29 counts as the third
business day; the result is 2025-12-29 after 5 calendar-day advances. -/
theorem c2_theorem :
    should_skip_date "LBC" (toOrdinal 2025 12 25) = true ∧
    is_holiday (toOrdinal 2025 12 25) false = true ∧
    should_skip_date "LBC" (toOrdinal 2025 12 26) = false ∧
    should_skip_date "LBC" (toOrdinal 2025 12 27) = false ∧
    should_skip_date "LBC" (toOrdinal 2025 12 28) = true ∧
    is_sunday (toOrdinal 2025 12 28) = true ∧
    should_skip_date "LBC" (toOrdinal 2025 12 29) = false ∧
    calc_loop "LBC" 3 100 100 (toOrdinal 2025 12 24) 0 0 = (toOrdinal 2025 12 29, 3, 5) ∧
    calculate_delivery_date (toOrdinal 2025 12 24) 3 "LBC" none = some (toOrdinal 2025 12 29) := by
  refine ⟨by decide, by decide, by decide, by decide, by decide, by decide, by decide,
    by decide, by decide⟩

/-- Claim C3: starting 2025-12-24 with 3 business days and courier J&T
(major-holiday-only policy), 2025-12-25 is skipped as a major holiday,
2025-12-26, 2025-12-27 and Sunday 2025-12-28 all count (J&T does not
skip Sundays); the result is 2025-12-28 after 4 calendar-day advances. -/
theorem c3_theorem :
    should_skip_date "J&T" (toOrdinal 2025 12 25) = true ∧
    is_holiday (toOrdinal 2025 12 25) true = true ∧
    should_skip_date "J&T" (toOrdinal 2025 12 26) = false ∧
    should_skip_date "J&T" (toOrdinal 2025 12 27) = false ∧
    should_skip_date "J&T" (toOrdinal 2025 12 28) = false ∧
    is_sunday (toOrdinal 2025 12 28) = true ∧
    calc_loop "J&T" 3 100 100 (toOrdinal 2025 12 24) 0 0 = (toOrdinal 2025 12 28, 3, 4) ∧
    calculate_delivery_date (toOrdinal 2025 12 24) 3 "J&T" none = some (toOrdinal 2025 12 28) := by
  refine ⟨by decide, by decide, by decide, by decide, by decide, by decide,
    by decide, by decide⟩

set_option maxRecDepth 40000 in
set_option maxHeartbeats 1000000 in
/-- Claim C5: for every year between 1900 and 2100, the Computus result
falls on a Sunday (weekday index 6), and the Holy Week dates are exactly
Easter minus 3, 2 and 1 days. -/
theorem c5_theorem (y : Nat) (h1 : 1900 ≤ y) (h2 : y ≤ 2100) :
    weekday (calculate_easter y) = 6 ∧
    get_holy_week_dates y =
      [calculate_easter y - 3, calculate_easter y - 2, calculate_easter y - 1] := by
  constructor
  · have key : ∀ i : Nat, i < 201 → weekday (calculate_easter (1900 + i)) = 6 := by decide
    have h := key (y - 1900) (by omega)
    rwa [show 1900 + (y - 1900) = y by omega] at h
  · rw [get_holy_week_dates, if_pos ⟨by omega, by omega⟩]

/-- Claim C5, witness at the concrete year 2025. -/
theorem c5_witness :
    1900 ≤ 2025 ∧ 2025 ≤ 2100 ∧
      (weekday (calculate_easter 2025) = 6 ∧
        get_holy_week_dates 2025 =
          [calculate_easter 2025 - 3, calculate_easter 2025 - 2, calculate_easter 2025 - 1]) :=
  ⟨by decide, by decide, c5_theorem 2025 (by decide) (by decide)⟩

/-- Claim C7: for every year, the full holiday list is strictly
ascending and duplicate-free, the major-holiday list is a subset of it,
and reading a holiday list twice through the memoization tables (from
any table state) yields identical sequences. -/
theorem c7_theorem (y : Nat) :
    (ph_holidays y).Pairwise (· < ·) ∧
    (ph_holidays y).Nodup ∧
    (∀ a ∈ major_ph_holidays y, a ∈ ph_holidays y) ∧
    (∀ st : HolidayState,
      (get_ph_holidays st y).1 = (get_ph_holidays (get_ph_holidays st y).2 y).1 ∧
      (get_major_ph_holidays st y).1 =
        (get_major_ph_holidays (get_major_ph_holidays st y).2 y).1) := by
  have hpw : (ph_holidays y).Pairwise (· < ·) := by
    unfold ph_holidays ph_holidays_core
    by_cases hy : 1 ≤ y ∧ y ≤ 9999
    · rw [if_pos hy]
      exact pairwise_dedupSort _
    · rw [if_neg hy]
      exact List.Pairwise.nil
  refine ⟨hpw, hpw.imp (fun h => Nat.ne_of_lt h), ?_, ?_⟩
  · intro a ha
    unfold major_ph_holidays major_ph_holidays_core at ha
    unfold ph_holidays ph_holidays_core
    by_cases hy : 1 ≤ y ∧ y ≤ 9999
    · rw [if_pos hy] at ha ⊢
      simp only [Option.getD_some] at ha ⊢
      rw [mem_dedupSort] at ha ⊢
      rw [get_holy_week_dates, if_pos hy] at ha ⊢
      simp only [List.length_cons, List.length_nil, List.take] at ha
      norm_num at ha
      simp only [ph_fixed_holidays, List.mem_append, List.mem_cons, List.not_mem_nil] at ha ⊢
      tauto
    · rw [if_neg hy] at ha
      simp at ha
  · intro st
    constructor
    · unfold get_ph_holidays
      cases h1 : st.holiday_cache.lookup y with
      | some l => simp [h1]
      | none =>
        cases h2 : ph_holidays_core y with
        | some l => simp [h1, h2, List.lookup]
        | none => simp [h1, h2]
    · unfold get_major_ph_holidays
      cases h1 : st.major_holiday_cache.lookup y with
      | some l => simp [h1]
      | none =>
        cases h2 : major_ph_holidays_core y with
        | some l => simp [h1, h2, List.lookup]
        | none => simp [h1, h2]

/-- Claim C7, witness at the concrete year 2025 and the empty
memoization state. -/
theorem c7_witness :
    (ph_holidays 2025).Pairwise (· < ·) ∧
    (ph_holidays 2025).Nodup ∧
    (∀ a ∈ major_ph_holidays 2025, a ∈ ph_holidays 2025) ∧
    (∀ st : HolidayState,
      (get_ph_holidays st 2025).1 = (get_ph_holidays (get_ph_holidays st 2025).2 2025).1 ∧
      (get_major_ph_holidays st 2025).1 =
        (get_major_ph_holidays (get_major_ph_holidays st 2025).2 2025).1) :=
  c7_theorem 2025

/-- Claim C8: the confidence label is computed from the ratio
`total_calendar_days / base_days` (ratio 1 when `base_days` is not
positive): high exactly when the ratio is at most 1.5, medium exactly
when it is above 1.5 and at most 2.0, low exactly when it is above 2.0;
in particular for `base_days = 3` the label is high at 4 total calendar
days, medium at 5 and low at 7. -/
theorem c8_theorem (base_days total_calendar_days : Int) (courier_name : String) :
    (0 < base_days →
      ((get_delivery_confidence base_days total_calendar_days courier_name = "high" ↔
          2 * total_calendar_days ≤ 3 * base_days) ∧
        (get_delivery_confidence base_days total_calendar_days courier_name = "medium" ↔
          3 * base_days < 2 * total_calendar_days ∧ total_calendar_days ≤ 2 * base_days) ∧
        (get_delivery_confidence base_days total_calendar_days courier_name = "low" ↔
          2 * base_days < total_calendar_days))) ∧
    (base_days ≤ 0 →
      get_delivery_confidence base_days total_calendar_days courier_name = "high") ∧
    get_delivery_confidence 3 4 courier_name = "high" ∧
    get_delivery_confidence 3 5 courier_name = "medium" ∧
    get_delivery_confidence 3 7 courier_name = "low" := by
  refine ⟨?_, ?_, ?_, ?_, ?_⟩
  · intro hb
    have hq : (0 : ℚ) < (base_days : ℚ) := by exact_mod_cast hb
    have e1 : ((total_calendar_days : ℚ) / (base_days : ℚ) ≤ 3 / 2) ↔
        2 * total_calendar_days ≤ 3 * base_days := by
      rw [div_le_div_iff₀ hq (by norm_num : (0 : ℚ) < 2)]
      rw [show ((total_calendar_days : ℚ) * 2) = ((2 * total_calendar_days : ℤ) : ℚ) by
        push_cast; ring]
      rw [show ((3 : ℚ) * (base_days : ℚ)) = ((3 * base_days : ℤ) : ℚ) by push_cast; ring]
      exact Int.cast_le
    have e2 : ((total_calendar_days : ℚ) / (base_days : ℚ) ≤ 2) ↔
        total_calendar_days ≤ 2 * base_days := by
      rw [div_le_iff₀ hq]
      rw [show ((2 : ℚ) * (base_days : ℚ)) = ((2 * base_days : ℤ) : ℚ) by push_cast; ring]
      exact Int.cast_le
    simp only [get_delivery_confidence, if_pos hb]
    split_ifs with h1 h2
    · refine ⟨iff_of_true rfl (e1.mp h1), iff_of_false (by decide) ?_, iff_of_false (by decide) ?_⟩
      · rintro ⟨hl, -⟩
        have := e1.mp h1
        omega
      · intro hl
        have := e1.mp h1
        omega
    · have f1 : ¬2 * total_calendar_days ≤ 3 * base_days := fun hh => h1 (e1.mpr hh)
      have f2 : total_calendar_days ≤ 2 * base_days := e2.mp h2
      exact ⟨iff_of_false (by decide) f1, iff_of_true rfl ⟨by omega, f2⟩,
        iff_of_false (by decide) (by omega)⟩
    · have f1 : ¬2 * total_calendar_days ≤ 3 * base_days := fun hh => h1 (e1.mpr hh)
      have f2 : ¬total_calendar_days ≤ 2 * base_days := fun hh => h2 (e2.mpr hh)
      exact ⟨iff_of_false (by decide) f1, iff_of_false (by decide) (fun h => absurd h.2 f2),
        iff_of_true rfl (by omega)⟩
  · intro hb
    simp only [get_delivery_confidence, if_neg (by omega : ¬0 < base_days)]
    norm_num
  · simp only [get_delivery_confidence]
    norm_num
  · simp only [get_delivery_confidence]
    norm_num
  · simp only [get_delivery_confidence]
    norm_num

/-- Claim C8, witness at `base_days = 3`. -/
theorem c8_witness :
    (0 < (3 : Int) →
      ((get_delivery_confidence 3 4 "LBC" = "high" ↔ 2 * (4 : Int) ≤ 3 * 3) ∧
        (get_delivery_confidence 3 4 "LBC" = "medium" ↔
          3 * (3 : Int) < 2 * 4 ∧ (4 : Int) ≤ 2 * 3) ∧
        (get_delivery_confidence 3 4 "LBC" = "low" ↔ 2 * (3 : Int) < 4))) ∧
    ((3 : Int) ≤ 0 → get_delivery_confidence 3 4 "LBC" = "high") ∧
    get_delivery_confidence 3 4 "LBC" = "high" ∧
    get_delivery_confidence 3 5 "LBC" = "medium" ∧
    get_delivery_confidence 3 7 "LBC" = "low" :=
  c8_theorem 3 4 "LBC"

/-- Claim C9: the cutoff check compares the current time-of-day strictly
against the instant built from the parsed hour and minute with seconds
and sub-seconds zeroed; 09:00 against cutoff 14:00 yields true and 15:00
yields false; a cutoff string that does not parse, or whose values are
out of range (such as the string with hour 25 and minute 99), yields
false. -/
theorem c9_theorem (t : TimeOfDay) (s : String) (h m : Int) :
    (parse_cutoff s = some (h, m) → 0 ≤ h → h < 24 → 0 ≤ m → m < 60 →
      (check_cutoff_time t s = true ↔
        t.toMicros < TimeOfDay.toMicros ⟨h.toNat, m.toNat, 0, 0⟩)) ∧
    (parse_cutoff s = none → check_cutoff_time t s = false) ∧
    (parse_cutoff s = some (h, m) → ¬(0 ≤ h ∧ h < 24 ∧ 0 ≤ m ∧ m < 60) →
      check_cutoff_time t s = false) ∧
    check_cutoff_time ⟨9, 0, 0, 0⟩ "14:00" = true ∧
    check_cutoff_time ⟨15, 0, 0, 0⟩ "14:00" = false ∧
    check_cutoff_time t "25:99" = false := by
  refine ⟨?_, ?_, ?_, by decide, by decide, ?_⟩
  · intro hp h1 h2 h3 h4
    rw [check_cutoff_time, hp]
    dsimp only
    rw [if_pos ⟨h1, h2, h3, h4⟩]
    exact decide_eq_true_iff
  · intro hp
    rw [check_cutoff_time, hp]
  · intro hp hr
    rw [check_cutoff_time, hp]
    dsimp only
    exact if_neg hr
  · rw [check_cutoff_time, show parse_cutoff "25:99" = some (25, 99) from by decide]
    dsimp only
    exact if_neg (by decide)

/-- Claim C9, witness at the 09:00 current time and the 14:00 cutoff. -/
theorem c9_witness :
    (parse_cutoff "14:00" = some (14, 0) → 0 ≤ (14 : Int) → (14 : Int) < 24 →
      0 ≤ (0 : Int) → (0 : Int) < 60 →
      (check_cutoff_time ⟨9, 0, 0, 0⟩ "14:00" = true ↔
        TimeOfDay.toMicros ⟨9, 0, 0, 0⟩ <
          TimeOfDay.toMicros ⟨(14 : Int).toNat, (0 : Int).toNat, 0, 0⟩)) ∧
    (parse_cutoff "14:00" = none → check_cutoff_time ⟨9, 0, 0, 0⟩ "14:00" = false) ∧
    (parse_cutoff "14:00" = some (14, 0) →
      ¬(0 ≤ (14 : Int) ∧ (14 : Int) < 24 ∧ 0 ≤ (0 : Int) ∧ (0 : Int) < 60) →
      check_cutoff_time ⟨9, 0, 0, 0⟩ "14:00" = false) ∧
    check_cutoff_time ⟨9, 0, 0, 0⟩ "14:00" = true ∧
    check_cutoff_time ⟨15, 0, 0, 0⟩ "14:00" = false ∧
    check_cutoff_time ⟨9, 0, 0, 0⟩ "25:99" = false :=
  c9_theorem ⟨9, 0, 0, 0⟩ "14:00" 14 0

/-- Claim C4: when a refresh is due (no fresh snapshot, or a forced
refresh) and no fetch is in flight, a successful, validated fetch
installs the new snapshot with the current timestamp and clears the
in-flight flag; afterwards, any call within `ttl` seconds with
`force_refresh` false returns that snapshot with the state untouched,
independently of the remote outcome (so no second fetch happens); once
`ttl` seconds have elapsed, the next call performs the fetch again and
installs its result. -/
theorem c4_theorem (tz_ok : String → Bool) (st : CacheState) (now now2 : Nat)
    (force_refresh : Bool) (c c2 : Config) (fetch2 : FetchOutcome)
    (h1 : force_refresh = true ∨ cache_fresh st now = false)
    (h2 : st.fetch_in_progress = false)
    (h3 : validate_config tz_ok c = true) :
    get_config tz_ok st now force_refresh (.sheet c) =
      (.ok (some c), ⟨some c, some now, st.cache_ttl, false⟩) ∧
    (now2 - now < st.cache_ttl →
      get_config tz_ok ⟨some c, some now, st.cache_ttl, false⟩ now2 false fetch2 =
        (.ok (some c), ⟨some c, some now, st.cache_ttl, false⟩)) ∧
    (st.cache_ttl ≤ now2 - now → validate_config tz_ok c2 = true →
      get_config tz_ok ⟨some c, some now, st.cache_ttl, false⟩ now2 false (.sheet c2) =
        (.ok (some c2), ⟨some c2, some now2, st.cache_ttl, false⟩)) := by
  refine ⟨?_, ?_, ?_⟩
  · rw [get_config, if_neg (by rcases h1 with h1 | h1 <;> simp [h1]), if_neg (by simp [h2])]
    dsimp only
    rw [if_pos h3]
  · intro hlt
    rw [get_config, if_pos ⟨by simp, by simp [cache_fresh, hlt]⟩]
  · intro hge hv
    rw [get_config, if_neg (by simp [cache_fresh]; omega), if_neg (by simp)]
    dsimp only
    rw [if_pos hv]

/-- Claim C4, witness: an empty cache, a successful fetch at time 0 with
TTL 600, a second call at time 100 (fresh) and the expiry case. -/
theorem c4_witness :
    get_config tzAlways ⟨none, none, 600, false⟩ 0 false (.sheet sampleConfig) =
      (.ok (some sampleConfig),
        ⟨some sampleConfig, some 0, (⟨none, none, 600, false⟩ : CacheState).cache_ttl, false⟩) ∧
    (100 - 0 < (⟨none, none, 600, false⟩ : CacheState).cache_ttl →
      get_config tzAlways
          ⟨some sampleConfig, some 0, (⟨none, none, 600, false⟩ : CacheState).cache_ttl, false⟩
          100 false .emptyData =
        (.ok (some sampleConfig),
          ⟨some sampleConfig, some 0, (⟨none, none, 600, false⟩ : CacheState).cache_ttl, false⟩)) ∧
    ((⟨none, none, 600, false⟩ : CacheState).cache_ttl ≤ 100 - 0 →
      validate_config tzAlways sampleConfig = true →
      get_config tzAlways
          ⟨some sampleConfig, some 0, (⟨none, none, 600, false⟩ : CacheState).cache_ttl, false⟩
          100 false (.sheet sampleConfig) =
        (.ok (some sampleConfig),
          ⟨some sampleConfig, some 100, (⟨none, none, 600, false⟩ : CacheState).cache_ttl, false⟩)) :=
  c4_theorem tzAlways ⟨none, none, 600, false⟩ 0 100 false sampleConfig sampleConfig
    .emptyData (Or.inr (by decide)) (by decide) (by decide)

/-- Claim C6: when a refresh is attempted and the remote step fails
(empty data, an exception, or a configuration that fails validation),
the in-flight flag is cleared and the previous snapshot, when one
exists, is returned unchanged; when no previous snapshot exists, the
failure propagates to the caller. -/
theorem c6_theorem (tz_ok : String → Bool) (st : CacheState) (now : Nat)
    (force_refresh : Bool) (fetch : FetchOutcome)
    (h1 : force_refresh = true ∨ cache_fresh st now = false)
    (h2 : st.fetch_in_progress = false)
    (h3 : fetch = .emptyData ∨ fetch = .raisesExc ∨
      ∃ c, fetch = .sheet c ∧ validate_config tz_ok c = false) :
    (∀ c0, st.cache = some c0 →
      get_config tz_ok st now force_refresh fetch =
        (.ok (some c0), { st with fetch_in_progress := false })) ∧
    (st.cache = none →
      get_config tz_ok st now force_refresh fetch =
        (.error (), { st with fetch_in_progress := false })) := by
  have hcond : ¬(¬force_refresh = true ∧ cache_fresh st now = true) := by
    rcases h1 with h1 | h1 <;> simp [h1]
  constructor
  · intro c0 hc
    rw [get_config, if_neg hcond, if_neg (by simp [h2])]
    rcases h3 with rfl | h3
    · dsimp only
      rw [hc]
    · rcases h3 with rfl | ⟨c, rfl, hv⟩
      · dsimp only
        rw [hc]
      · dsimp only
        rw [if_neg (by simp [hv]), hc]
  · intro hc
    rw [get_config, if_neg hcond, if_neg (by simp [h2])]
    rcases h3 with rfl | h3
    · dsimp only
      rw [hc]
    · rcases h3 with rfl | ⟨c, rfl, hv⟩
      · dsimp only
        rw [hc]
      · dsimp only
        rw [if_neg (by simp [hv]), hc]

/-- Claim C6, witness: an expired snapshot, an empty remote response;
the stale snapshot is returned with the flag cleared. -/
theorem c6_witness :
    (∀ c0, (⟨some sampleConfig, some 0, 600, false⟩ : CacheState).cache = some c0 →
      get_config tzAlways ⟨some sampleConfig, some 0, 600, false⟩ 1000 false .emptyData =
        (.ok (some c0),
          { (⟨some sampleConfig, some 0, 600, false⟩ : CacheState) with
              fetch_in_progress := false })) ∧
    ((⟨some sampleConfig, some 0, 600, false⟩ : CacheState).cache = none →
      get_config tzAlways ⟨some sampleConfig, some 0, 600, false⟩ 1000 false .emptyData =
        (.error (),
          { (⟨some sampleConfig, some 0, 600, false⟩ : CacheState) with
              fetch_in_progress := false })) :=
  c6_theorem tzAlways ⟨some sampleConfig, some 0, 600, false⟩ 1000 false .emptyData
    (Or.inr (by decide)) (by decide) (Or.inl rfl)

/-- Claim C10: when courier and region both pass input validation, the
courier exists in the configuration but the region is absent under it
(or carries a non-integer or non-positive value), the estimate tool
fails with error code INVALID_COURIER (never INVALID_REGION) together
with the list of available couriers; and the response is literally the
one an unknown courier with the same courier list would produce, so the
two cases are indistinguishable at the public interface. -/
theorem c10_theorem (config : Config) (current_date : Nat) (current_tod : TimeOfDay)
    (courier_name region nc nr : String) (regions : List (String × CVal))
    (h1 : validate_courier courier_name = some nc)
    (h2 : validate_region region = some nr)
    (h3 : config.couriers.lookup nc = some regions)
    (h4 : regions.lookup nr = none ∨ regions.lookup nr = some CVal.nonInt ∨
      ∃ n, regions.lookup nr = some (CVal.int n) ∧ n ≤ 0) :
    delivery_estimate config current_date current_tod courier_name region =
      .failure .INVALID_COURIER (some (config.couriers.map Prod.fst)) ∧
    ∀ config2 : Config, config2.couriers.lookup nc = none →
      config2.couriers.map Prod.fst = config.couriers.map Prod.fst →
      delivery_estimate config2 current_date current_tod courier_name region =
        delivery_estimate config current_date current_tod courier_name region := by
  have hbase : get_courier_base_days config nc nr = none := by
    rw [get_courier_base_days, h3]
    dsimp only
    rcases h4 with h4 | h4 | ⟨n, h4, hn⟩
    · rw [h4]
    · rw [h4]
    · rw [h4]
      dsimp only
      rw [if_pos hn]
  have hmain : delivery_estimate config current_date current_tod courier_name region =
      .failure .INVALID_COURIER (some (config.couriers.map Prod.fst)) := by
    rw [delivery_estimate, h1]
    dsimp only
    rw [h2]
    dsimp only
    rw [hbase]
  refine ⟨hmain, ?_⟩
  intro config2 hl hkeys
  have hbase2 : get_courier_base_days config2 nc nr = none := by
    rw [get_courier_base_days, hl]
  rw [hmain, delivery_estimate, h1]
  dsimp only
  rw [h2]
  dsimp only
  rw [hbase2]
  dsimp only
  rw [hkeys]

/-- Claim C10, witness: the sample configuration services region ncr
under LBC only; the valid region luzon is not serviced by LBC. -/
theorem c10_witness :
    delivery_estimate sampleConfig 0 ⟨9, 0, 0, 0⟩ "LBC" "luzon" =
      .failure .INVALID_COURIER (some (sampleConfig.couriers.map Prod.fst)) ∧
    ∀ config2 : Config, config2.couriers.lookup "LBC" = none →
      config2.couriers.map Prod.fst = sampleConfig.couriers.map Prod.fst →
      delivery_estimate config2 0 ⟨9, 0, 0, 0⟩ "LBC" "luzon" =
        delivery_estimate sampleConfig 0 ⟨9, 0, 0, 0⟩ "LBC" "luzon" :=
  c10_theorem sampleConfig 0 ⟨9, 0, 0, 0⟩ "LBC" "luzon" "LBC" "luzon"
    [("ncr", CVal.int 3)] (by decide) (by decide) (by decide) (Or.inl (by decide))

end Delivery
